import Mathlib

/-!
Verification of the BR service safe-point keeper (`pkg/utils/safe_point.go`).

The Go module talks to a PD (coordination service) client and to a logger.
We embed it shallowly: each function is parameterized by the response the PD
client would return for its single remote call, log statements become values
in an explicit log list, and the keeper's select loop becomes a fold over the
list of events (context cancellation / renewal-ticker tick / check-ticker
tick) that fire, in order.  Machine integers: `BackupTS` is a Go `uint64`,
modelled as `Nat` with arithmetic mod `2 ^ 64`; `TTL` is a Go `int64` and
`time.Duration` is an `int64` count of nanoseconds, both modelled as `Int`
with the product `TTL * time.Second` reduced to the int64 range by `wrap64`,
since Go multiplication wraps on overflow.
-/

namespace SafePoint

/-- The modulus of Go `uint64` arithmetic. -/
def u64Mod : Nat := 2 ^ 64

/-- Go `uint64` evaluation of `x - 1` (wraps at zero): `sp.BackupTS - 1`
in the source. -/
def u64sub1 (x : Nat) : Nat := (x + (u64Mod - 1)) % u64Mod

/-- `BRServiceSafePoint` (safe_point.go line 30): metadata of a service safe
point from a BR instance. -/
structure BRServiceSafePoint where
  ID : String
  TTL : Int
  BackupTS : Nat
deriving Repr, DecidableEq

/-- One nanosecond, the unit of Go `time.Duration`. -/
def nanosecond : Int := 1

/-- Go `time.Second` as a `time.Duration` (nanoseconds). -/
def second : Int := 1000000000

/-- `preUpdateServiceSafePointFactor = 3` (safe_point.go line 23). -/
def preUpdateServiceSafePointFactor : Int := 3

/-- `checkGCSafePointGapTime = 5 * time.Second` (safe_point.go line 24). -/
def checkGCSafePointGapTime : Int := 5 * second

/-- `DefaultBRGCSafePointTTL = 5 * 60` (safe_point.go line 26). -/
def DefaultBRGCSafePointTTL : Int := 5 * 60

/-- Go int64 wraparound: the representative of `x` in
`[-2 ^ 63, 2 ^ 63)`. -/
def wrap64 (x : Int) : Int := (x + 2 ^ 63) % 2 ^ 64 - 2 ^ 63

/-- `updateGapTime := time.Duration(sp.TTL) * time.Second /
preUpdateServiceSafePointFactor` (safe_point.go line 101).  `time.Duration`
is an `int64`, so the multiplication wraps on overflow (`wrap64`); Go
division of `int64` truncates toward zero, hence `Int.tdiv` (its result
cannot overflow for a divisor of 3, so no further wrap). -/
def updateGapTime (ttl : Int) : Int :=
  Int.tdiv (wrap64 (ttl * second)) preUpdateServiceSafePointFactor

/-- Log statements the module can emit, in the order the source issues them. -/
inductive LogEntry where
  | warnGetGCSafePointFailed
  | debugUpdateSafePoint
  | warnServiceSafePointLost (lastSafePoint : Nat)
deriving Repr, DecidableEq

/-- The error value a PD remote call may return; its content is opaque here. -/
def PDError := String
deriving instance Repr, DecidableEq for PDError

/-- `getGCSafePoint` (safe_point.go line 49): forwards the result of
`pdClient.UpdateGCSafePoint(ctx, 0)`; on error it returns the (traced) error,
on success the safe point.  The PD response is the parameter. -/
def getGCSafePoint (pdResp : Except PDError Nat) : Except PDError Nat :=
  match pdResp with
  | Except.error e => Except.error e
  | Except.ok safePoint => Except.ok safePoint

/-- Outcome of `CheckGCSafePoint`: `nil` error, or the
`ErrBackupGCSafepointExceeded` annotated with the observed safe point and the
checked ts. -/
inductive CheckOutcome where
  | ok
  | gcExceeded (safePoint ts : Nat)
deriving Repr, DecidableEq

/-- Result of `CheckGCSafePoint` together with the log entries it emitted. -/
structure CheckResult where
  outcome : CheckOutcome
  logs : List LogEntry
deriving Repr, DecidableEq

/-- `CheckGCSafePoint` (safe_point.go lines 64-75): queries the current GC
safe point; a failed query is logged and swallowed (returns `nil`); on a
successful query it errors iff `ts <= safePoint`. -/
def CheckGCSafePoint (pdResp : Except PDError Nat) (ts : Nat) : CheckResult :=
  match getGCSafePoint pdResp with
  | Except.error _ =>
      { outcome := CheckOutcome.ok, logs := [LogEntry.warnGetGCSafePointFailed] }
  | Except.ok safePoint =>
      if ts ≤ safePoint then
        { outcome := CheckOutcome.gcExceeded safePoint ts, logs := [] }
      else
        { outcome := CheckOutcome.ok, logs := [] }

/-- The triple `UpdateServiceSafePoint` passes to
`pdClient.UpdateServiceGCSafePoint(ctx, id, ttl, ts)`. -/
structure UpdateCall where
  id : String
  ttl : Int
  ts : Nat
deriving Repr, DecidableEq

/-- What `UpdateServiceSafePoint` did: the triple submitted to PD, the log
entries emitted, and the error returned to the caller. -/
structure UpdateResult where
  submitted : UpdateCall
  logs : List LogEntry
  err : Option PDError
deriving Repr, DecidableEq

/-- The PD response to `UpdateServiceGCSafePoint`: the previous stored value
(`lastSafePoint`, a `uint64`) and the error, as in Go both are always
present. -/
def PDUpdateResp := Nat × Option PDError

/-- `UpdateServiceSafePoint` (safe_point.go lines 78-91): submits
`(sp.ID, sp.TTL, sp.BackupTS - 1)` to PD; if the reported previous value is
greater than `sp.BackupTS - 1` it warns that the service safe point was lost;
it returns the (traced) PD error.  The comparison with `lastSafePoint` is
made before the error is inspected, exactly as in the source. -/
def UpdateServiceSafePoint (pdResp : PDUpdateResp) (sp : BRServiceSafePoint) :
    UpdateResult :=
  let lastSafePoint := pdResp.1
  let lostLogs :=
    if u64sub1 sp.BackupTS < lastSafePoint then
      [LogEntry.warnServiceSafePointLost lastSafePoint]
    else []
  { submitted := { id := sp.ID, ttl := sp.TTL, ts := u64sub1 sp.BackupTS }
    logs := LogEntry.debugUpdateSafePoint :: lostLogs
    err := pdResp.2 }

/-- An event the keeper's `select` can observe, with the PD response the
resulting remote call (if any) would receive. -/
inductive KeeperEvent where
  | ctxDone
  | updateTick (pdResp : PDUpdateResp)
  | checkTick (pdResp : Except PDError Nat)

/-- Observable actions of the keeper, in program order: remote calls, the
loop's own log statements, the fatal `log.Panic`, the clean exit on
cancellation, and the deferred `Stop` of both tickers. -/
inductive KeeperAction where
  | renewCall (c : UpdateCall)
  | checkCall (ts : Nat)
  | warnRenewFailed
  | panicAbort
  | exitClean
  | stopTimers
deriving Repr, DecidableEq

/-- Whether and how the keeper goroutine has terminated. -/
inductive KeeperStatus where
  | running
  | exited
  | panicked
deriving Repr, DecidableEq

/-- The `update` closure (safe_point.go lines 102-108): call
`UpdateServiceSafePoint`; if it returned an error, log a warning and
continue. -/
def updateActions (sp : BRServiceSafePoint) (pdResp : PDUpdateResp) :
    List KeeperAction :=
  let r := UpdateServiceSafePoint pdResp sp
  KeeperAction.renewCall r.submitted ::
    (match r.err with
     | none => []
     | some _ => [KeeperAction.warnRenewFailed])

/-- The keeper's `for { select ... } }` loop (safe_point.go lines 123-133)
applied to the sequence of events that fire: `ctx.Done()` logs and returns
(running the deferred ticker `Stop`s); an update tick runs the `update`
closure and continues; a check tick runs the `check` closure, which calls
`log.Panic` — terminating the goroutine after the deferred `Stop`s — exactly
when `CheckGCSafePoint` returned an error. -/
def keeperLoop (sp : BRServiceSafePoint) :
    List KeeperEvent → List KeeperAction × KeeperStatus
  | [] => ([], KeeperStatus.running)
  | KeeperEvent.ctxDone :: _ =>
      ([KeeperAction.exitClean, KeeperAction.stopTimers], KeeperStatus.exited)
  | KeeperEvent.updateTick pdResp :: evs =>
      let rest := keeperLoop sp evs
      (updateActions sp pdResp ++ rest.1, rest.2)
  | KeeperEvent.checkTick pdResp :: evs =>
      match (CheckGCSafePoint pdResp sp.BackupTS).outcome with
      | CheckOutcome.gcExceeded _ _ =>
          ([KeeperAction.checkCall sp.BackupTS, KeeperAction.panicAbort,
            KeeperAction.stopTimers], KeeperStatus.panicked)
      | CheckOutcome.ok =>
          let rest := keeperLoop sp evs
          (KeeperAction.checkCall sp.BackupTS :: rest.1, rest.2)

/-- `StartServiceSafePointKeeper` (safe_point.go lines 95-135): creates the
two tickers — Go `time.NewTicker` panics when its period is not positive, so
a non-positive `updateGapTime` panics before anything else runs (the check
ticker's period is the positive constant `checkGCSafePointGapTime`) — then
performs one synchronous `update(ctx)` and enters the event loop.
`initResp` is the PD response to that first synchronous renewal. -/
def StartServiceSafePointKeeper (sp : BRServiceSafePoint)
    (initResp : PDUpdateResp) (evs : List KeeperEvent) :
    List KeeperAction × KeeperStatus :=
  if updateGapTime sp.TTL ≤ 0 then
    ([], KeeperStatus.panicked)
  else
    let rest := keeperLoop sp evs
    (updateActions sp initResp ++ rest.1, rest.2)

/-- Remote calls (renewals or checks) among a list of keeper actions. -/
def isRemoteCall : KeeperAction → Bool
  | KeeperAction.renewCall _ => true
  | KeeperAction.checkCall _ => true
  | _ => false

/-- Renewal calls among a list of keeper actions. -/
def isRenewCall : KeeperAction → Bool
  | KeeperAction.renewCall _ => true
  | _ => false

lemma u64Mod_eq : u64Mod = 18446744073709551616 := by norm_num [u64Mod]

lemma u64sub1_zero : u64sub1 0 = u64Mod - 1 := by decide

lemma u64sub1_of_pos {x : Nat} (h0 : 0 < x) (h : x < u64Mod) :
    u64sub1 x = x - 1 := by
  have hm := u64Mod_eq
  unfold u64sub1
  have hx : x + (u64Mod - 1) = (x - 1) + u64Mod := by omega
  rw [hx, Nat.add_mod_right, Nat.mod_eq_of_lt (by omega)]

lemma u64sub1_ne {x : Nat} (h : x < u64Mod) : u64sub1 x ≠ x := by
  have hm := u64Mod_eq
  rcases Nat.eq_zero_or_pos x with h0 | h0
  · subst h0
    rw [u64sub1_zero]
    omega
  · rw [u64sub1_of_pos h0 h]
    omega

lemma wrap64_eq_self {x : Int} (h1 : -(2 ^ 63) ≤ x) (h2 : x < 2 ^ 63) :
    wrap64 x = x := by
  unfold wrap64
  norm_num at h1 h2 ⊢
  omega

lemma updateGapTime_bounds (ttl : Int) (h : 0 ≤ ttl)
    (hov : ttl * second < 2 ^ 63) :
    preUpdateServiceSafePointFactor * updateGapTime ttl ≤ ttl * second ∧
    ttl * second < preUpdateServiceSafePointFactor * (updateGapTime ttl + 1) := by
  have hs : (0 : Int) ≤ ttl * second := by
    have : (0 : Int) ≤ second := by norm_num [second]
    exact mul_nonneg h this
  have hw : wrap64 (ttl * second) = ttl * second :=
    wrap64_eq_self (le_trans (by norm_num) hs) hov
  unfold updateGapTime preUpdateServiceSafePointFactor
  rw [hw, Int.tdiv_eq_ediv hs (by norm_num)]
  have h1 := Int.ediv_add_emod (ttl * second) 3
  have h2 : 0 ≤ ttl * second % 3 := Int.emod_nonneg _ (by norm_num)
  have h3 : ttl * second % 3 < 3 := Int.emod_lt_of_pos _ (by norm_num)
  omega

/-- Claim C1: when the query of the global GC safe point succeeds with value
`safePoint`, `CheckGCSafePoint` returns the GC-exceeded error carrying
exactly `(safePoint, ts)` iff `ts ≤ safePoint`, and returns success iff
`safePoint < ts`. -/
theorem checkGCSafePoint_query_ok (safePoint ts : Nat) :
    ((CheckGCSafePoint (Except.ok safePoint) ts).outcome =
        CheckOutcome.gcExceeded safePoint ts ↔ ts ≤ safePoint) ∧
    ((CheckGCSafePoint (Except.ok safePoint) ts).outcome = CheckOutcome.ok ↔
        safePoint < ts) ∧
    (∀ v t, (CheckGCSafePoint (Except.ok safePoint) ts).outcome =
        CheckOutcome.gcExceeded v t → v = safePoint ∧ t = ts) := by
  unfold CheckGCSafePoint getGCSafePoint
  by_cases h : ts ≤ safePoint
  · simp [h]
  · simp [h]
    omega

/-- Concrete instances of the claim C1 theorem: observed safe point 1500
exceeds ts 1000; observed safe point 999 does not exceed ts 1000. -/
theorem checkGCSafePoint_query_ok_witness :
    (CheckGCSafePoint (Except.ok 1500) 1000).outcome =
      CheckOutcome.gcExceeded 1500 1000 ∧
    (CheckGCSafePoint (Except.ok 999) 1000).outcome = CheckOutcome.ok :=
  ⟨(checkGCSafePoint_query_ok 1500 1000).1.mpr (by decide),
   ((checkGCSafePoint_query_ok 999 1000).2.1).mpr (by decide)⟩

/-- Claim C2: when the query of the global GC safe point itself fails,
`CheckGCSafePoint` returns success for every ts; the failure is only
logged (a single warning). -/
theorem checkGCSafePoint_query_failure (e : PDError) (ts : Nat) :
    (CheckGCSafePoint (Except.error e) ts).outcome = CheckOutcome.ok ∧
    (CheckGCSafePoint (Except.error e) ts).logs =
      [LogEntry.warnGetGCSafePointFailed] := by
  unfold CheckGCSafePoint getGCSafePoint
  exact ⟨rfl, rfl⟩

/-- Claim C3: `UpdateServiceSafePoint` submits exactly
`(sp.ID, sp.TTL, sp.BackupTS - 1)` (uint64 subtraction) to the coordination
service; the submitted timestamp is never `sp.BackupTS` itself, and for
positive `BackupTS` it is exactly one less. -/
theorem updateServiceSafePoint_submits_pred (sp : BRServiceSafePoint)
    (pdResp : PDUpdateResp) (h : sp.BackupTS < u64Mod) :
    (UpdateServiceSafePoint pdResp sp).submitted =
      { id := sp.ID, ttl := sp.TTL, ts := u64sub1 sp.BackupTS } ∧
    (0 < sp.BackupTS →
      (UpdateServiceSafePoint pdResp sp).submitted.ts = sp.BackupTS - 1) ∧
    (UpdateServiceSafePoint pdResp sp).submitted.ts ≠ sp.BackupTS := by
  refine ⟨rfl, ?_, ?_⟩
  · intro h0
    show u64sub1 sp.BackupTS = sp.BackupTS - 1
    exact u64sub1_of_pos h0 h
  · show u64sub1 sp.BackupTS ≠ sp.BackupTS
    exact u64sub1_ne h

/-- Concrete instance of the claim C3 theorem: `BackupTS = 1000` submits
timestamp 999, not 1000. -/
theorem updateServiceSafePoint_submits_pred_witness :
    (UpdateServiceSafePoint (0, none) ⟨"br-id", 600, 1000⟩).submitted.ts = 999 ∧
    (UpdateServiceSafePoint (0, none) ⟨"br-id", 600, 1000⟩).submitted.ts ≠ 1000 := by
  have h := updateServiceSafePoint_submits_pred ⟨"br-id", 600, 1000⟩ (0, none)
    (by decide)
  exact ⟨h.2.1 (by decide), h.2.2⟩

/-- Claim C5, as stated, is false of the int64 arithmetic: at
`ttl = 18446744074 > 0` the product `ttl * time.Second` wraps, giving a
renewal period of 96816128 ns (about 0.097 s) instead of `ttl / 3`
seconds. -/
theorem keeper_period_overflow_counterexample :
    (0 : Int) < 18446744074 ∧
    updateGapTime 18446744074 = 96816128 * nanosecond ∧
    updateGapTime 18446744074 ≠
      Int.tdiv (18446744074 * second) preUpdateServiceSafePointFactor := by
  exact ⟨by norm_num, by decide, by decide⟩

/-- Claim C5 (amended to ttl whose product with `time.Second` stays in the
int64 range, i.e. `0 < ttl ≤ 9223372036`): the renewal period is `ttl / 3`
seconds — exactly, as the truncated quotient of `ttl` seconds by 3
nanosecond-wise: `3 * period ≤ ttl·s < 3 * (period + 1)` — with the spec's
instances `ttl = 300 ↦ 100 s`, `ttl = 600 ↦ 200 s`,
`ttl = 5 ↦ 1666666666 ns ≈ 1.67 s`; the check period is the constant 5
seconds. -/
theorem keeper_renewal_and_check_periods (ttl : Int) (h : 0 < ttl)
    (hov : ttl * second < 2 ^ 63) :
    preUpdateServiceSafePointFactor * updateGapTime ttl ≤ ttl * second ∧
    ttl * second < preUpdateServiceSafePointFactor * (updateGapTime ttl + 1) ∧
    updateGapTime 300 = 100 * second ∧
    updateGapTime 600 = 200 * second ∧
    updateGapTime 5 = 1666666666 * nanosecond ∧
    checkGCSafePointGapTime = 5 * second := by
  have hb := updateGapTime_bounds ttl (le_of_lt h) hov
  exact ⟨hb.1, hb.2, by decide, by decide, by decide, rfl⟩

/-- Concrete instance of the amended claim C5 theorem at `ttl = 300`. -/
theorem keeper_renewal_and_check_periods_witness :
    preUpdateServiceSafePointFactor * updateGapTime 300 ≤ 300 * second ∧
    updateGapTime 300 = 100 * second :=
  ⟨(keeper_renewal_and_check_periods 300 (by norm_num) (by decide)).1,
   (keeper_renewal_and_check_periods 300 (by norm_num) (by decide)).2.2.1⟩

/-- Claim C6, as stated, is false at `TTL = 0`: `time.NewTicker` panics on
its non-positive period before the synchronous renewal runs, so the start
performs zero renewal calls. -/
theorem startKeeper_ttl_zero_counterexample :
    StartServiceSafePointKeeper ⟨"br-zero", 0, 1000⟩ (0, none)
        [KeeperEvent.ctxDone] = ([], KeeperStatus.panicked) ∧
    List.countP isRenewCall (StartServiceSafePointKeeper ⟨"br-zero", 0, 1000⟩
        (0, none) [KeeperEvent.ctxDone]).1 = 0 := by
  exact ⟨by decide, by decide⟩

/-- Claim C6 (amended to every TTL whose computed renewal period
`updateGapTime TTL` is positive — in particular every
`0 < TTL ≤ 9223372036`; otherwise `time.NewTicker`, created before the
synchronous renewal, panics on its non-positive period): starting the keeper
performs exactly one renewal call — and no check call — synchronously before
any timer-driven event is processed, for every such ttl and every sequence
of timer events; the first action is that renewal, submitting
`(ID, TTL, BackupTS - 1)`. -/
theorem startKeeper_initial_renewal (sp : BRServiceSafePoint)
    (initResp : PDUpdateResp) (evs : List KeeperEvent)
    (h : 0 < updateGapTime sp.TTL) :
    StartServiceSafePointKeeper sp initResp evs =
      (updateActions sp initResp ++ (keeperLoop sp evs).1,
       (keeperLoop sp evs).2) ∧
    List.countP isRemoteCall (updateActions sp initResp) = 1 ∧
    (updateActions sp initResp).head? =
      some (KeeperAction.renewCall
        { id := sp.ID, ttl := sp.TTL, ts := u64sub1 sp.BackupTS }) := by
  refine ⟨?_, ?_, rfl⟩
  · unfold StartServiceSafePointKeeper
    rw [if_neg (by omega)]
  · rcases initResp with ⟨lastSafePoint, e⟩
    cases e <;> rfl

/-- Concrete instance of the amended claim C6 theorem: `TTL = 600`,
`BackupTS = 1000`; the synchronous renewal submits `(id, 600, 999)` first. -/
theorem startKeeper_initial_renewal_witness :
    (updateActions ⟨"br-w6", 600, 1000⟩ (0, none)).head? =
      some (KeeperAction.renewCall ⟨"br-w6", 600, 999⟩) := by
  have h := startKeeper_initial_renewal ⟨"br-w6", 600, 1000⟩ (0, none) []
    (by decide)
  have he : u64sub1 1000 = 999 := by decide
  rw [show (⟨"br-w6", 600, 999⟩ : UpdateCall) =
    { id := "br-w6", ttl := 600, ts := u64sub1 1000 } by rw [he]]
  exact h.2.2

/-- Claim C7: when the coordination service reports a previous stored value
strictly greater than `BackupTS - 1`, `UpdateServiceSafePoint` logs the
reservation-lost warning but still returns success when the remote call
succeeded; the returned error never depends on that comparison. -/
theorem updateServiceSafePoint_lost_warning (sp : BRServiceSafePoint)
    (lastSafePoint : Nat) (h : u64sub1 sp.BackupTS < lastSafePoint) :
    (UpdateServiceSafePoint (lastSafePoint, none) sp).err = none ∧
    LogEntry.warnServiceSafePointLost lastSafePoint ∈
      (UpdateServiceSafePoint (lastSafePoint, none) sp).logs ∧
    (∀ e : Option PDError,
      (UpdateServiceSafePoint (lastSafePoint, e) sp).err = e) := by
  refine ⟨rfl, ?_, fun e => rfl⟩
  unfold UpdateServiceSafePoint
  simp [h]

/-- Concrete instance of the claim C7 theorem: previous value 5000 exceeds
`1000 - 1 = 999`; warning logged, no error returned. -/
theorem updateServiceSafePoint_lost_warning_witness :
    (UpdateServiceSafePoint (5000, none) ⟨"br-w7", 600, 1000⟩).err = none ∧
    LogEntry.warnServiceSafePointLost 5000 ∈
      (UpdateServiceSafePoint (5000, none) ⟨"br-w7", 600, 1000⟩).logs :=
  ⟨(updateServiceSafePoint_lost_warning ⟨"br-w7", 600, 1000⟩ 5000 (by decide)).1,
   (updateServiceSafePoint_lost_warning ⟨"br-w7", 600, 1000⟩ 5000
     (by decide)).2.1⟩

/-- Claim C10: with `BackupTS = 0`, the uint64 wraparound makes the renewal
submit `2^64 - 1`, and since every uint64 previous value is `< 2^64` the
reservation-lost warning can never fire on such a call. -/
theorem updateServiceSafePoint_backupTS_zero (sp : BRServiceSafePoint)
    (h : sp.BackupTS = 0) :
    (∀ pdResp : PDUpdateResp,
      (UpdateServiceSafePoint pdResp sp).submitted.ts = u64Mod - 1) ∧
    (∀ (lastSafePoint : Nat) (e : Option PDError), lastSafePoint < u64Mod →
      LogEntry.warnServiceSafePointLost lastSafePoint ∉
        (UpdateServiceSafePoint (lastSafePoint, e) sp).logs) := by
  constructor
  · intro pdResp
    show u64sub1 sp.BackupTS = u64Mod - 1
    rw [h, u64sub1_zero]
  · intro lastSafePoint e hlt
    have hcond : ¬ (u64sub1 sp.BackupTS < lastSafePoint) := by
      rw [h, u64sub1_zero]
      omega
    unfold UpdateServiceSafePoint
    simp [hcond]

/-- Concrete instance of the claim C10 theorem at `BackupTS = 0`,
previous value 9999. -/
theorem updateServiceSafePoint_backupTS_zero_witness :
    (UpdateServiceSafePoint (9999, none) ⟨"br-w10", 600, 0⟩).submitted.ts =
      u64Mod - 1 ∧
    LogEntry.warnServiceSafePointLost 9999 ∉
      (UpdateServiceSafePoint (9999, none) ⟨"br-w10", 600, 0⟩).logs :=
  ⟨(updateServiceSafePoint_backupTS_zero ⟨"br-w10", 600, 0⟩ rfl).1 (9999, none),
   (updateServiceSafePoint_backupTS_zero ⟨"br-w10", 600, 0⟩ rfl).2 9999 none
     (by decide)⟩

lemma keeperLoop_exited_only_by_cancel (sp : BRServiceSafePoint) :
    ∀ evs : List KeeperEvent, (keeperLoop sp evs).2 = KeeperStatus.exited →
      KeeperAction.panicAbort ∉ (keeperLoop sp evs).1 ∧
      ∃ pre post, evs = pre ++ KeeperEvent.ctxDone :: post := by
  intro evs
  induction evs with
  | nil => intro h; exact absurd h (by simp [keeperLoop])
  | cons ev evs ih =>
    intro h
    cases ev with
    | ctxDone =>
      refine ⟨?_, [], evs, rfl⟩
      simp [keeperLoop]
    | updateTick pdResp =>
      have h2 : (keeperLoop sp evs).2 = KeeperStatus.exited := by
        simpa [keeperLoop] using h
      obtain ⟨hnp, pre, post, heq⟩ := ih h2
      refine ⟨?_, KeeperEvent.updateTick pdResp :: pre, post, by rw [heq]; rfl⟩
      simp only [keeperLoop, List.mem_append]
      rintro (hin | hin)
      · rcases pdResp with ⟨lastSafePoint, e⟩
        cases e <;> simp [updateActions, UpdateServiceSafePoint] at hin
      · exact hnp hin
    | checkTick pdResp =>
      cases hc : (CheckGCSafePoint pdResp sp.BackupTS).outcome with
      | gcExceeded v t =>
        rw [show (keeperLoop sp (KeeperEvent.checkTick pdResp :: evs)).2 =
            KeeperStatus.panicked by simp [keeperLoop, hc]] at h
        exact absurd h (by simp)
      | ok =>
        have h2 : (keeperLoop sp evs).2 = KeeperStatus.exited := by
          simpa [keeperLoop, hc] using h
        obtain ⟨hnp, pre, post, heq⟩ := ih h2
        refine ⟨?_, KeeperEvent.checkTick pdResp :: pre, post, by rw [heq]; rfl⟩
        simp only [keeperLoop, hc, List.mem_cons]
        rintro (hin | hin)
        · exact absurd hin (by simp)
        · exact hnp hin

/-- Claim C4: a check tick whose `CheckGCSafePoint` outcome is GC-exceeded is
fatal — the loop performs the check call, panics, stops the tickers, and
processes none of the remaining events (no further renewal or check call);
on the success outcome the loop performs the check call and continues with
the rest of the events. -/
theorem keeperLoop_gcExceeded_fatal (sp : BRServiceSafePoint)
    (pdResp : Except PDError Nat) (evs : List KeeperEvent) :
    ((∃ v t, (CheckGCSafePoint pdResp sp.BackupTS).outcome =
        CheckOutcome.gcExceeded v t) →
      keeperLoop sp (KeeperEvent.checkTick pdResp :: evs) =
        ([KeeperAction.checkCall sp.BackupTS, KeeperAction.panicAbort,
          KeeperAction.stopTimers], KeeperStatus.panicked)) ∧
    ((CheckGCSafePoint pdResp sp.BackupTS).outcome = CheckOutcome.ok →
      keeperLoop sp (KeeperEvent.checkTick pdResp :: evs) =
        (KeeperAction.checkCall sp.BackupTS :: (keeperLoop sp evs).1,
         (keeperLoop sp evs).2)) := by
  constructor
  · rintro ⟨v, t, hvt⟩
    simp [keeperLoop, hvt]
  · intro h
    simp [keeperLoop, h]

/-- Concrete instance of the claim C4 theorem: observed safe point 1500 at
`BackupTS = 1000` panics and drops the queued renewal event. -/
theorem keeperLoop_gcExceeded_fatal_witness :
    keeperLoop ⟨"br-w4", 600, 1000⟩
        [KeeperEvent.checkTick (Except.ok 1500),
         KeeperEvent.updateTick (0, none)] =
      ([KeeperAction.checkCall 1000, KeeperAction.panicAbort,
        KeeperAction.stopTimers], KeeperStatus.panicked) :=
  (keeperLoop_gcExceeded_fatal ⟨"br-w4", 600, 1000⟩ (Except.ok 1500)
      [KeeperEvent.updateTick (0, none)]).1 ⟨1500, 1000, by decide⟩

/-- Claim C8: an update tick whose renewal call returns an error is never
fatal — the loop performs the renewal call, logs a warning, and continues
with the remaining events with unchanged status; no panic occurs in that
step. -/
theorem keeperLoop_renewal_failure_nonfatal (sp : BRServiceSafePoint)
    (lastSafePoint : Nat) (e : PDError) (evs : List KeeperEvent) :
    keeperLoop sp (KeeperEvent.updateTick (lastSafePoint, some e) :: evs) =
      (updateActions sp (lastSafePoint, some e) ++ (keeperLoop sp evs).1,
       (keeperLoop sp evs).2) ∧
    KeeperAction.warnRenewFailed ∈ updateActions sp (lastSafePoint, some e) ∧
    KeeperAction.panicAbort ∉ updateActions sp (lastSafePoint, some e) := by
  refine ⟨?_, ?_, ?_⟩
  · simp [keeperLoop]
  · unfold updateActions UpdateServiceSafePoint
    simp
  · unfold updateActions UpdateServiceSafePoint
    simp

/-- Claim C9: a cancellation event makes the loop exit cleanly — it stops
both tickers, performs no further renewal or check call whatever events were
still queued, and takes no panic path; moreover a clean exit
(`KeeperStatus.exited`) only ever arises from a cancellation event, so this
is the only non-fatal termination of the loop. -/
theorem keeperLoop_cancellation (sp : BRServiceSafePoint)
    (evs : List KeeperEvent) :
    keeperLoop sp (KeeperEvent.ctxDone :: evs) =
      ([KeeperAction.exitClean, KeeperAction.stopTimers],
       KeeperStatus.exited) ∧
    List.countP isRemoteCall (keeperLoop sp (KeeperEvent.ctxDone :: evs)).1 =
      0 ∧
    (∀ evs2, (keeperLoop sp evs2).2 = KeeperStatus.exited →
      KeeperAction.panicAbort ∉ (keeperLoop sp evs2).1 ∧
      ∃ pre post, evs2 = pre ++ KeeperEvent.ctxDone :: post) :=
  ⟨rfl, rfl, fun evs2 h => keeperLoop_exited_only_by_cancel sp evs2 h⟩

/-- Concrete instance of the claim C9 theorem: cancellation ahead of a
queued check event exits cleanly; a run that exited cleanly contains a
cancellation event. -/
theorem keeperLoop_cancellation_witness :
    keeperLoop ⟨"br-w9", 600, 1000⟩
        [KeeperEvent.ctxDone, KeeperEvent.checkTick (Except.ok 1500)] =
      ([KeeperAction.exitClean, KeeperAction.stopTimers],
       KeeperStatus.exited) ∧
    ∃ pre post, [KeeperEvent.updateTick (0, none), KeeperEvent.ctxDone] =
      pre ++ KeeperEvent.ctxDone :: post := by
  have h := keeperLoop_cancellation ⟨"br-w9", 600, 1000⟩
    [KeeperEvent.checkTick (Except.ok 1500)]
  refine ⟨h.1, ?_⟩
  exact (h.2.2 [KeeperEvent.updateTick (0, none), KeeperEvent.ctxDone]
    (by decide)).2

end SafePoint
